import Mathlib

/-!
Verification of the Rescue CPR backend (src/backend/main.py and
src/backend/main_old_keras.py) against its natural-language specification.

The guidance synthesizer and the session aggregation loop operate on Python
dictionaries of numbers; they are embedded here over `ℚ` (exact arithmetic),
with dictionary lookups-with-default modelled as structure fields carrying
the same default values the Python `dict.get` calls use.  The pose-angle
computation (`get_angle`) uses `arccos` and is embedded over `ℝ`.
-/

namespace Rescue

/-- One frame's analysis dictionary, as produced by `analyze_cpr_image`
(src/backend/main.py lines 141-209).  Each field default is the value the
corresponding `analysis.get(key, default)` lookup in `generate_guidance`
uses when the key is absent, so an `Analysis` with default fields models
both the all-default result dictionary and an empty mapping.  The `error`
key is optional; `analyze_cpr_image` returns a dictionary holding only
`error` on failure, which corresponds to all-default measurement fields. -/
structure Analysis where
  pose_detected : Bool := false
  arm_angle : ℚ := 0
  depth : ℚ := 0
  hand_x : ℚ := 0.5
  quality : ℚ := 0
  phase : ℚ := 0
  error : Option String := none
deriving DecidableEq

/-- Round half to even (Python's `round` tie-breaking rule) to an integer. -/
def roundHalfEven (q : ℚ) : ℤ :=
  let f : ℤ := ⌊q⌋
  if q - f < 1/2 then f
  else if 1/2 < q - f then f + 1
  else if f % 2 = 0 then f else f + 1

/-- Python's `round(x, d)` on exact rationals. -/
def pyRound (q : ℚ) (d : ℕ) : ℚ :=
  (roundHalfEven (q * 10 ^ d) : ℚ) / 10 ^ d

/-- The `metrics` sub-dictionary of a guidance result
(src/backend/main.py lines 265-271). -/
structure Metrics where
  arm_angle : ℚ
  depth_inches : ℚ
  quality_percent : ℚ
  hands_centered : Bool
  compression_phase : String
deriving DecidableEq

/-- A guidance result (src/backend/main.py lines 261-272). -/
structure Guidance where
  instruction : String
  all_feedback : List String
  priority : String
  metrics : Metrics
deriving DecidableEq

/-- The arm-angle rule block of `generate_guidance`
(src/backend/main.py lines 218-226): fires only when `pose_detected` is
truthy, appends to the running feedback list and overwrites the running
priority. -/
def arm_rule (a : Analysis) (fb : List String) (pr : String) :
    List String × String :=
  if a.pose_detected then
    if a.arm_angle < 150 then (fb ++ ["STRAIGHTEN YOUR ARMS"], "critical")
    else if a.arm_angle < 160 then (fb ++ ["Arms need to be straighter"], "warning")
    else (fb, pr)
  else (fb, pr)

/-- The compression-depth rule block of `generate_guidance`
(src/backend/main.py lines 228-241): fires only when `depth > 0`. -/
def depth_rule (a : Analysis) (fb : List String) (pr : String) :
    List String × String :=
  if 0 < a.depth then
    if a.depth < 1.8 then (fb ++ ["PRESS DEEPER - at least 2 inches"], "critical")
    else if a.depth < 2 then
      (fb ++ ["Press a bit deeper"], if pr = "normal" then "warning" else pr)
    else if 2.4 < a.depth then
      (fb ++ ["Too deep - ease up"], if pr = "normal" then "warning" else pr)
    else (fb, pr)
  else (fb, pr)

/-- The hand-centering rule block of `generate_guidance`
(src/backend/main.py lines 243-248). -/
def hand_rule (a : Analysis) (fb : List String) (pr : String) :
    List String × String :=
  if 0.15 < |a.hand_x - 0.5| then
    (fb ++ ["CENTER YOUR HANDS on the chest"], if pr = "normal" then "warning" else pr)
  else (fb, pr)

/-- The three rule blocks of `generate_guidance` run in source order,
threading the feedback list (initially `[]`) and the priority (initially
`"normal"`). -/
def rules_state (a : Analysis) : List String × String :=
  let s1 := arm_rule a [] "normal"
  let s2 := depth_rule a s1.1 s1.2
  hand_rule a s2.1 s2.2

/-- Embedding of `generate_guidance` (src/backend/main.py lines 211-272;
the identical function also appears in src/backend/main_old_keras.py lines
290-348).  The main instruction is `feedback[0]` when feedback is
non-empty, else the good-technique message with priority `"good"`.  Note
that the function never reads the `error` key of the analysis dictionary. -/
def generate_guidance (a : Analysis) : Guidance :=
  let s3 := rules_state a
  let quality_percent := a.quality * 100
  { instruction :=
      if s3.1.length = 0 then "Good CPR technique! Keep going!" else s3.1.headI
    all_feedback := s3.1
    priority := if s3.1.length = 0 then "good" else s3.2
    metrics :=
      { arm_angle := pyRound a.arm_angle 1
        depth_inches := pyRound a.depth 2
        quality_percent := pyRound quality_percent 1
        hands_centered := decide (|a.hand_x - 0.5| < 0.1)
        compression_phase := if 0.5 < a.phase then "down" else "up" } }

/-! ## The fallback orchestrator (src/backend/main_old_keras.py) -/

/-- A backend result dictionary as the fallback orchestrator sees it: an
optional `error` entry, the `analysis_source` tag the orchestrator writes,
and the remaining payload entries, which the orchestrator never inspects. -/
structure BackendResult where
  error : Option String := none
  analysis_source : Option String := none
  payload : List (String × ℚ) := []
deriving DecidableEq

/-- Truthiness of `result.get("error")` in Python: the key is present and
its string value is non-empty. -/
def error_truthy (r : BackendResult) : Bool :=
  match r.error with
  | none => false
  | some s => s != ""

/-- The dictionary write `result["analysis_source"] = s`. -/
def set_analysis_source (r : BackendResult) (s : String) : BackendResult :=
  { r with analysis_source := some s }

/-- The three analysis backends of src/backend/main_old_keras.py, in the
priority order of `analyze_cpr_image_with_replicate`. -/
inductive BackendTag
  | replicate
  | ml_service
  | local_models
deriving DecidableEq

/-- Embedding of `analyze_cpr_image_with_replicate`
(src/backend/main_old_keras.py lines 162-191).  The backends are external
calls, modelled by the results they would return: `rep` from
`analyze_with_replicate`, `ml` from `analyze_with_ml_service`, `loc` from
`analyze_cpr_image_local`; `conv` is `convert_replicate_to_standard_format`
(defined in replicate_service.py, which is not part of the repository
snapshot, so it stays an uninterpreted parameter); `use_ml` is
`USE_ML_SERVICE and ml_client` (the ML service being configured).  Returns
the chosen result together with the list of backends invoked, in
invocation order.  Mirrors the source exactly: a falsy `error` accepts a
result; the ML service is attempted only when configured and its result
accepted only when its `error` is falsy; the local backend result is
returned unconditionally last, whether or not it carries an error. -/
def analyze_cpr_image_with_replicate (use_ml : Bool)
    (conv : BackendResult → BackendResult)
    (rep ml loc : BackendResult) : BackendResult × List BackendTag :=
  if error_truthy rep = false then
    (set_analysis_source (conv rep) "replicate", [BackendTag.replicate])
  else if use_ml then
    if error_truthy ml = false then
      (set_analysis_source ml "ml_service",
       [BackendTag.replicate, BackendTag.ml_service])
    else
      (loc, [BackendTag.replicate, BackendTag.ml_service, BackendTag.local_models])
  else
    (loc, [BackendTag.replicate, BackendTag.local_models])

/-! ## Session aggregation (src/backend/main.py, `get_sessions`) -/

/-- One stored photo record as `get_sessions` reads it back: the analysis
dictionary's `position` entry (absent modelled as `none`; the code
defaults an absent entry to `"uncertain"`) and its `confidence` entry
(default `0`). -/
structure PhotoRecord where
  position : Option String := none
  confidence : ℚ := 0
deriving DecidableEq

/-- The per-session accumulator initialised by the `defaultdict` in
`get_sessions` (src/backend/main.py lines 549-560), restricted to the
fields the per-photo loop mutates. -/
structure SessionStats where
  total_photos : ℕ := 0
  good_positions : ℕ := 0
  poor_positions : ℕ := 0
  no_cpr_detected : ℕ := 0
  average_confidence : ℚ := 0
  photos : List PhotoRecord := []
deriving DecidableEq

/-- The position labels the `elif position in [...]` branch of
`get_sessions` counts as poor (src/backend/main.py line 608). -/
def poor_position_labels : List String :=
  ["high", "low", "left", "right", "uncertain", "unknown"]

/-- The per-photo update of `get_sessions` for one session
(src/backend/main.py lines 592-616): append the photo, bump
`total_photos`, bump whichever position counter the if/elif chain
selects (possibly none), and fold the confidence into the running
average as `((current_avg * (total_photos - 1)) + confidence) /
total_photos` with `total_photos` already incremented. -/
def record_photo (s : SessionStats) (p : PhotoRecord) : SessionStats :=
  let pos := p.position.getD "uncertain"
  let total := s.total_photos + 1
  let counters :=
    if pos = "good" then
      (s.good_positions + 1, s.poor_positions, s.no_cpr_detected)
    else if pos ∈ poor_position_labels then
      (s.good_positions, s.poor_positions + 1, s.no_cpr_detected)
    else if pos = "no_cpr" then
      (s.good_positions, s.poor_positions, s.no_cpr_detected + 1)
    else
      (s.good_positions, s.poor_positions, s.no_cpr_detected)
  { total_photos := total
    good_positions := counters.1
    poor_positions := counters.2.1
    no_cpr_detected := counters.2.2
    average_confidence :=
      (s.average_confidence * ((total : ℚ) - 1) + p.confidence) / (total : ℚ)
    photos := s.photos ++ [p] }

/-- Folding a sequence of photos of one session through the
`get_sessions` per-photo loop, from the fresh accumulator. -/
def run_photos (ps : List PhotoRecord) : SessionStats :=
  ps.foldl record_photo {}

/-- The batch arithmetic mean of the recorded confidences, recomputed
from scratch (the reference value the incremental average is claimed to
agree with). -/
def batch_mean (ps : List PhotoRecord) : ℚ :=
  if ps.length = 0 then 0
  else (ps.map PhotoRecord.confidence).sum / (ps.length : ℚ)

/-! ## Pose angle (src/backend/main.py, `get_angle` and the landmark
processing of `analyze_cpr_image`) -/

/-- A 3-component numpy vector. -/
structure P3 where
  x : ℝ
  y : ℝ
  z : ℝ

/-- Componentwise vector difference. -/
def vsub (p q : P3) : P3 :=
  ⟨p.x - q.x, p.y - q.y, p.z - q.z⟩

/-- `np.dot` of two 3-vectors. -/
def vdot (p q : P3) : ℝ :=
  p.x * q.x + p.y * q.y + p.z * q.z

/-- `np.linalg.norm` of a 3-vector. -/
noncomputable def vnorm (p : P3) : ℝ :=
  Real.sqrt (p.x ^ 2 + p.y ^ 2 + p.z ^ 2)

/-- Embedding of `get_angle` (src/backend/main.py lines 119-124):
`np.degrees(np.arccos(np.clip(dot(v1,v2) / (norm(v1)*norm(v2) + 1e-6),
-1, 1)))`. -/
noncomputable def get_angle (p1 p2 p3 : P3) : ℝ :=
  let v1 := vsub p1 p2
  let v2 := vsub p3 p2
  let c := vdot v1 v2 / (vnorm v1 * vnorm v2 + 1e-6)
  Real.arccos (min 1 (max (-1) c)) * (180 / Real.pi)

/-- A MediaPipe pose landmark: normalized image coordinates. -/
structure Landmark where
  x : ℝ
  y : ℝ
  z : ℝ

/-- The scaling `analyze_cpr_image` applies to a landmark before the
angle computation (src/backend/main.py lines 161-175): `(lm.x * w,
lm.y * h, lm.z * w)`. -/
def scale_landmark (lm : Landmark) (w h : ℝ) : P3 :=
  ⟨lm.x * w, lm.y * h, lm.z * w⟩

/-- The arm angle `analyze_cpr_image` writes into its results when a pose
is detected (src/backend/main.py lines 160-178): the elbow angle of the
LEFT arm only, from landmarks 11 (left shoulder), 13 (left elbow) and 15
(left wrist). -/
noncomputable def reported_arm_angle (lm : ℕ → Landmark) (w h : ℝ) : ℝ :=
  get_angle (scale_landmark (lm 11) w h) (scale_landmark (lm 13) w h)
    (scale_landmark (lm 15) w h)

/-- Modelled from the spec: the arm angle §4.2 prescribes when bilateral
landmarks are available — the mean of the left-arm (11, 13, 15) and
right-arm (12, 14, 16) elbow angles. -/
noncomputable def spec_bilateral_arm_angle (lm : ℕ → Landmark) (w h : ℝ) : ℝ :=
  (get_angle (scale_landmark (lm 11) w h) (scale_landmark (lm 13) w h)
      (scale_landmark (lm 15) w h) +
    get_angle (scale_landmark (lm 12) w h) (scale_landmark (lm 14) w h)
      (scale_landmark (lm 16) w h)) / 2

/-- A concrete frame in which both arms' landmarks are present and the
two elbow angles differ: the left arm is straight (collinear landmarks),
the right elbow is bent at a right angle. -/
noncomputable def cex_landmarks : ℕ → Landmark := fun n =>
  if n = 11 then ⟨0, 0, 0⟩
  else if n = 13 then ⟨1, 0, 0⟩
  else if n = 15 then ⟨2, 0, 0⟩
  else if n = 12 then ⟨1, 1, 0⟩
  else if n = 14 then ⟨1, 0, 0⟩
  else ⟨2, 0, 0⟩

/-- The same frame with the right wrist landmark moved: the left-arm
landmarks are unchanged. -/
noncomputable def cex_landmarks2 : ℕ → Landmark := fun n =>
  if n = 16 then ⟨9, 9, 9⟩ else cex_landmarks n

/-! ## Helper lemmas about the guidance rule pipeline -/

theorem mem_arm_rule (a : Analysis) (fb : List String) (pr : String) (x : String) :
    x ∈ (arm_rule a fb pr).1 ↔ x ∈ fb ∨
      (a.pose_detected = true ∧ a.arm_angle < 150 ∧
        x = "STRAIGHTEN YOUR ARMS") ∨
      (a.pose_detected = true ∧ ¬ a.arm_angle < 150 ∧ a.arm_angle < 160 ∧
        x = "Arms need to be straighter") := by
  unfold arm_rule
  split_ifs <;>
    simp_all only [List.mem_append, List.mem_cons, List.mem_singleton,
      List.not_mem_nil, eq_self_iff_true, true_and, and_true, false_and,
      and_false, true_or, or_true, false_or, or_false, not_true,
      not_false_iff, iff_true, iff_false] <;>
    tauto

theorem mem_depth_rule (a : Analysis) (fb : List String) (pr : String) (x : String) :
    x ∈ (depth_rule a fb pr).1 ↔ x ∈ fb ∨
      (0 < a.depth ∧ a.depth < 1.8 ∧
        x = "PRESS DEEPER - at least 2 inches") ∨
      (0 < a.depth ∧ ¬ a.depth < 1.8 ∧ a.depth < 2 ∧
        x = "Press a bit deeper") ∨
      (0 < a.depth ∧ ¬ a.depth < 1.8 ∧ ¬ a.depth < 2 ∧ 2.4 < a.depth ∧
        x = "Too deep - ease up") := by
  unfold depth_rule
  split_ifs <;>
    simp_all only [List.mem_append, List.mem_cons, List.mem_singleton,
      List.not_mem_nil, eq_self_iff_true, true_and, and_true, false_and,
      and_false, true_or, or_true, false_or, or_false, not_true,
      not_false_iff, iff_true, iff_false]

theorem mem_hand_rule (a : Analysis) (fb : List String) (pr : String) (x : String) :
    x ∈ (hand_rule a fb pr).1 ↔ x ∈ fb ∨
      (0.15 < |a.hand_x - 0.5| ∧
        x = "CENTER YOUR HANDS on the chest") := by
  unfold hand_rule
  split_ifs <;>
    simp_all only [List.mem_append, List.mem_cons, List.mem_singleton,
      List.not_mem_nil, eq_self_iff_true, true_and, and_true, false_and,
      and_false, true_or, or_true, false_or, or_false, not_true,
      not_false_iff, iff_true, iff_false]

theorem mem_rules_state (a : Analysis) (x : String) :
    x ∈ (rules_state a).1 ↔
      (a.pose_detected = true ∧ a.arm_angle < 150 ∧
        x = "STRAIGHTEN YOUR ARMS") ∨
      (a.pose_detected = true ∧ ¬ a.arm_angle < 150 ∧ a.arm_angle < 160 ∧
        x = "Arms need to be straighter") ∨
      (0 < a.depth ∧ a.depth < 1.8 ∧
        x = "PRESS DEEPER - at least 2 inches") ∨
      (0 < a.depth ∧ ¬ a.depth < 1.8 ∧ a.depth < 2 ∧
        x = "Press a bit deeper") ∨
      (0 < a.depth ∧ ¬ a.depth < 1.8 ∧ ¬ a.depth < 2 ∧ 2.4 < a.depth ∧
        x = "Too deep - ease up") ∨
      (0.15 < |a.hand_x - 0.5| ∧
        x = "CENTER YOUR HANDS on the chest") := by
  unfold rules_state
  rw [mem_hand_rule, mem_depth_rule, mem_arm_rule]
  simp only [List.not_mem_nil, false_or, or_assoc]

theorem arm_rule_pr_cases (a : Analysis) :
    (arm_rule a [] "normal").2 = "normal" ∨ (arm_rule a [] "normal").2 = "warning" ∨
      (arm_rule a [] "normal").2 = "critical" := by
  unfold arm_rule
  split_ifs <;> simp

theorem depth_rule_keeps_crit (a : Analysis) (fb : List String) :
    (depth_rule a fb "critical").2 = "critical" := by
  unfold depth_rule
  split_ifs <;> simp_all

theorem hand_rule_keeps_crit (a : Analysis) (fb : List String) :
    (hand_rule a fb "critical").2 = "critical" := by
  unfold hand_rule
  split_ifs <;> simp_all

theorem depth_rule_atLeast (a : Analysis) (fb : List String) (pr : String)
    (h : pr = "warning" ∨ pr = "critical") :
    (depth_rule a fb pr).2 = "warning" ∨ (depth_rule a fb pr).2 = "critical" := by
  unfold depth_rule
  rcases h with h | h <;> subst h <;> split_ifs <;> simp_all

theorem hand_rule_atLeast (a : Analysis) (fb : List String) (pr : String)
    (h : pr = "warning" ∨ pr = "critical") :
    (hand_rule a fb pr).2 = "warning" ∨ (hand_rule a fb pr).2 = "critical" := by
  unfold hand_rule
  rcases h with h | h <;> subst h <;> split_ifs <;> simp_all

theorem arm_rule_ne_good (a : Analysis) (fb : List String) (pr : String)
    (h : pr ≠ "good") : (arm_rule a fb pr).2 ≠ "good" := by
  unfold arm_rule
  split_ifs <;> simp_all

theorem depth_rule_ne_good (a : Analysis) (fb : List String) (pr : String)
    (h : pr ≠ "good") : (depth_rule a fb pr).2 ≠ "good" := by
  unfold depth_rule
  split_ifs <;> simp_all

theorem hand_rule_ne_good (a : Analysis) (fb : List String) (pr : String)
    (h : pr ≠ "good") : (hand_rule a fb pr).2 ≠ "good" := by
  unfold hand_rule
  split_ifs <;> simp_all

theorem rules_state_pr_ne_good (a : Analysis) : (rules_state a).2 ≠ "good" := by
  unfold rules_state
  exact hand_rule_ne_good _ _ _ (depth_rule_ne_good _ _ _ (arm_rule_ne_good _ _ _ (by simp)))

theorem generate_guidance_feedback (a : Analysis) :
    (generate_guidance a).all_feedback = (rules_state a).1 := rfl

theorem generate_guidance_priority (a : Analysis) :
    (generate_guidance a).priority =
      if (rules_state a).1.length = 0 then "good" else (rules_state a).2 := rfl

theorem generate_guidance_instruction (a : Analysis) :
    (generate_guidance a).instruction =
      if (rules_state a).1.length = 0 then "Good CPR technique! Keep going!"
      else (rules_state a).1.headI := rfl

theorem rules_state_eq (a : Analysis) :
    rules_state a =
      hand_rule a
        (depth_rule a (arm_rule a [] "normal").1 (arm_rule a [] "normal").2).1
        (depth_rule a (arm_rule a [] "normal").1 (arm_rule a [] "normal").2).2 := rfl

theorem rules_state_pr_crit_arm (a : Analysis) (hpose : a.pose_detected = true)
    (harm : a.arm_angle < 150) : (rules_state a).2 = "critical" := by
  have h1 : arm_rule a [] "normal" = (["STRAIGHTEN YOUR ARMS"], "critical") := by
    simp [arm_rule, hpose, harm]
  unfold rules_state
  rw [h1]
  show (hand_rule a (depth_rule a ["STRAIGHTEN YOUR ARMS"] "critical").1
      (depth_rule a ["STRAIGHTEN YOUR ARMS"] "critical").2).2 = "critical"
  rw [depth_rule_keeps_crit]
  exact hand_rule_keeps_crit _ _

theorem rules_state_pr_crit_depth (a : Analysis) (h0 : 0 < a.depth)
    (h18 : a.depth < 1.8) : (rules_state a).2 = "critical" := by
  have hd : ∀ fb pr, depth_rule a fb pr =
      (fb ++ ["PRESS DEEPER - at least 2 inches"], "critical") := by
    intro fb pr
    simp [depth_rule, h0, h18]
  rw [rules_state_eq, hd]
  exact hand_rule_keeps_crit _ _

theorem rules_state_pr_warn_depth_mid (a : Analysis) (h0 : 0 < a.depth)
    (h18 : ¬ a.depth < 1.8) (h2 : a.depth < 2) :
    (rules_state a).2 = "warning" ∨ (rules_state a).2 = "critical" := by
  rw [rules_state_eq]
  apply hand_rule_atLeast
  have hd : ∀ fb pr, (depth_rule a fb pr).2 =
      if pr = "normal" then "warning" else pr := by
    intro fb pr
    simp [depth_rule, h0, h18, h2]
  rw [hd]
  rcases arm_rule_pr_cases a with h | h | h <;> rw [h] <;> simp

theorem rules_state_pr_warn_depth_deep (a : Analysis) (h24 : 2.4 < a.depth) :
    (rules_state a).2 = "warning" ∨ (rules_state a).2 = "critical" := by
  have h0 : 0 < a.depth := by linarith
  have h18 : ¬ a.depth < 1.8 := by push_neg; linarith
  have h2 : ¬ a.depth < 2 := by push_neg; linarith
  rw [rules_state_eq]
  apply hand_rule_atLeast
  have hd : ∀ fb pr, (depth_rule a fb pr).2 =
      if pr = "normal" then "warning" else pr := by
    intro fb pr
    simp [depth_rule, h0, h18, h2, h24]
  rw [hd]
  rcases arm_rule_pr_cases a with h | h | h <;> rw [h] <;> simp

/-! ## Claim theorems -/

/-- C3: the guidance result satisfies `priority = "good"` iff the feedback
list is empty; when feedback is non-empty the instruction is `feedback[0]`;
when it is empty the instruction is the good-technique message; and the
concrete scenario arm angle 175°, depth 2.2 in, `hand_x = 0.5` yields empty
feedback, priority `"good"` and the good-technique instruction. -/
theorem priority_good_iff_no_feedback (a : Analysis) :
    ((generate_guidance a).priority = "good" ↔
      (generate_guidance a).all_feedback = []) ∧
    ((generate_guidance a).all_feedback ≠ [] →
      (generate_guidance a).instruction =
        (generate_guidance a).all_feedback.headI) ∧
    ((generate_guidance a).all_feedback = [] →
      (generate_guidance a).instruction = "Good CPR technique! Keep going!") ∧
    (generate_guidance
        { pose_detected := true, arm_angle := 175, depth := 2.2, hand_x := 0.5 }).all_feedback
      = [] ∧
    (generate_guidance
        { pose_detected := true, arm_angle := 175, depth := 2.2, hand_x := 0.5 }).priority
      = "good" ∧
    (generate_guidance
        { pose_detected := true, arm_angle := 175, depth := 2.2, hand_x := 0.5 }).instruction
      = "Good CPR technique! Keep going!" := by
  refine ⟨?_, ?_, ?_, ?_, ?_, ?_⟩
  · simp only [generate_guidance_priority, generate_guidance_feedback]
    by_cases hl : (rules_state a).1 = []
    · simp [hl]
    · simp [hl, List.length_eq_zero, rules_state_pr_ne_good a]
  · intro h
    rw [generate_guidance_feedback] at h
    simp [generate_guidance_instruction, generate_guidance_feedback,
      List.length_eq_zero, h]
  · intro h
    rw [generate_guidance_feedback] at h
    simp [generate_guidance_instruction, h]
  · norm_num [generate_guidance, rules_state, arm_rule, depth_rule, hand_rule]
  · norm_num [generate_guidance, rules_state, arm_rule, depth_rule, hand_rule]
  · norm_num [generate_guidance, rules_state, arm_rule, depth_rule, hand_rule]

theorem priority_good_iff_no_feedback_witness :
    (generate_guidance { pose_detected := true, arm_angle := 145 }).instruction =
      (generate_guidance { pose_detected := true, arm_angle := 145 }).all_feedback.headI := by
  refine (priority_good_iff_no_feedback
    { pose_detected := true, arm_angle := 145 }).2.1 ?_
  norm_num [generate_guidance, rules_state, arm_rule, depth_rule, hand_rule]

/-- C4: the arm-angle rule.  With a detected pose: angle `< 150` adds
"STRAIGHTEN YOUR ARMS" and the final priority is critical; angle in
`[150, 160)` adds "Arms need to be straighter" and the rule sets priority
warning; angle `≥ 160` adds no arm feedback; without a detected pose the
rule never fires.  Concretely, arm angle 145 with depth 2.1 and centered
hands yields feedback exactly `["STRAIGHTEN YOUR ARMS"]`, priority
critical, instruction "STRAIGHTEN YOUR ARMS". -/
theorem arm_angle_rule_cases (a : Analysis) :
    (a.pose_detected = true → a.arm_angle < 150 →
      "STRAIGHTEN YOUR ARMS" ∈ (generate_guidance a).all_feedback ∧
      (generate_guidance a).priority = "critical") ∧
    (a.pose_detected = true → 150 ≤ a.arm_angle → a.arm_angle < 160 →
      "Arms need to be straighter" ∈ (generate_guidance a).all_feedback ∧
      (arm_rule a [] "normal").2 = "warning") ∧
    (a.pose_detected = true → 160 ≤ a.arm_angle →
      "STRAIGHTEN YOUR ARMS" ∉ (generate_guidance a).all_feedback ∧
      "Arms need to be straighter" ∉ (generate_guidance a).all_feedback ∧
      ∀ fb pr, arm_rule a fb pr = (fb, pr)) ∧
    (a.pose_detected = false →
      "STRAIGHTEN YOUR ARMS" ∉ (generate_guidance a).all_feedback ∧
      "Arms need to be straighter" ∉ (generate_guidance a).all_feedback ∧
      ∀ fb pr, arm_rule a fb pr = (fb, pr)) ∧
    ((generate_guidance
        { pose_detected := true, arm_angle := 145, depth := 2.1, hand_x := 0.5 }).all_feedback
      = ["STRAIGHTEN YOUR ARMS"] ∧
     (generate_guidance
        { pose_detected := true, arm_angle := 145, depth := 2.1, hand_x := 0.5 }).priority
      = "critical" ∧
     (generate_guidance
        { pose_detected := true, arm_angle := 145, depth := 2.1, hand_x := 0.5 }).instruction
      = "STRAIGHTEN YOUR ARMS") := by
  refine ⟨?_, ?_, ?_, ?_, ?_, ?_, ?_⟩
  · intro hpose harm
    have hmem : "STRAIGHTEN YOUR ARMS" ∈ (generate_guidance a).all_feedback := by
      rw [generate_guidance_feedback, mem_rules_state]
      exact Or.inl ⟨hpose, harm, rfl⟩
    refine ⟨hmem, ?_⟩
    rw [generate_guidance_priority, if_neg, rules_state_pr_crit_arm a hpose harm]
    rw [generate_guidance_feedback] at hmem
    simp [List.length_eq_zero, List.ne_nil_of_mem hmem]
  · intro hpose h150 h160
    constructor
    · rw [generate_guidance_feedback, mem_rules_state]
      exact Or.inr (Or.inl ⟨hpose, not_lt.mpr h150, h160, rfl⟩)
    · simp [arm_rule, hpose, not_lt.mpr h150, h160]
  · intro hpose h160
    have hn1 : ¬ a.arm_angle < 150 := by push_neg; linarith
    have hn2 : ¬ a.arm_angle < 160 := not_lt.mpr h160
    refine ⟨?_, ?_, ?_⟩
    · rw [generate_guidance_feedback, mem_rules_state]
      rintro (⟨_, h, _⟩ | ⟨_, _, h, _⟩ | ⟨_, _, h⟩ | ⟨_, _, _, h⟩ |
        ⟨_, _, _, _, h⟩ | ⟨_, h⟩) <;> first
        | exact hn1 h
        | exact hn2 h
        | exact absurd h (by decide)
    · rw [generate_guidance_feedback, mem_rules_state]
      rintro (⟨_, h, _⟩ | ⟨_, hh, h, _⟩ | ⟨_, _, h⟩ | ⟨_, _, _, h⟩ |
        ⟨_, _, _, _, h⟩ | ⟨_, h⟩) <;> first
        | exact hn1 h
        | exact hn2 h
        | exact absurd h (by decide)
    · intro fb pr
      simp [arm_rule, hpose, hn1, hn2]
  · intro hpose
    refine ⟨?_, ?_, ?_⟩
    · rw [generate_guidance_feedback, mem_rules_state]
      rintro (⟨h, _, _⟩ | ⟨h, _, _, _⟩ | ⟨_, _, h⟩ | ⟨_, _, _, h⟩ |
        ⟨_, _, _, _, h⟩ | ⟨_, h⟩) <;> first
        | (rw [hpose] at h; exact absurd h (by decide))
        | exact absurd h (by decide)
    · rw [generate_guidance_feedback, mem_rules_state]
      rintro (⟨h, _, _⟩ | ⟨h, _, _, _⟩ | ⟨_, _, h⟩ | ⟨_, _, _, h⟩ |
        ⟨_, _, _, _, h⟩ | ⟨_, h⟩) <;> first
        | (rw [hpose] at h; exact absurd h (by decide))
        | exact absurd h (by decide)
    · intro fb pr
      simp [arm_rule, hpose]
  · norm_num [generate_guidance, rules_state, arm_rule, depth_rule, hand_rule]
  · norm_num [generate_guidance, rules_state, arm_rule, depth_rule, hand_rule]
  · norm_num [generate_guidance, rules_state, arm_rule, depth_rule, hand_rule]

theorem arm_angle_rule_cases_witness :
    "STRAIGHTEN YOUR ARMS" ∈
      (generate_guidance { pose_detected := true, arm_angle := 120 }).all_feedback ∧
    (generate_guidance { pose_detected := true, arm_angle := 120 }).priority
      = "critical" :=
  (arm_angle_rule_cases { pose_detected := true, arm_angle := 120 }).1 rfl (by norm_num)

theorem generate_guidance_priority_of_mem (a : Analysis) (x : String)
    (h : x ∈ (generate_guidance a).all_feedback) :
    (generate_guidance a).priority = (rules_state a).2 := by
  rw [generate_guidance_feedback] at h
  have h0 : ¬ (rules_state a).1.length = 0 := by
    rw [List.length_eq_zero]
    exact List.ne_nil_of_mem h
  rw [generate_guidance_priority, if_neg h0]

/-- C5 (with the messages as the code spells them, hyphen not em dash):
the compression-depth rule.  Measured depth `< 1.8` adds "PRESS DEEPER -
at least 2 inches" and the final priority is critical; depth in
`[1.8, 2.0)` adds "Press a bit deeper" and the final priority is at least
warning; depth `> 2.4` adds "Too deep - ease up" and the final priority is
at least warning; depth in `[2.0, 2.4]` adds no depth feedback; unmeasured
depth (`0`) adds no depth feedback. -/
theorem compression_depth_rule_cases (a : Analysis) :
    (0 < a.depth → a.depth < 1.8 →
      "PRESS DEEPER - at least 2 inches" ∈ (generate_guidance a).all_feedback ∧
      (generate_guidance a).priority = "critical") ∧
    (1.8 ≤ a.depth → a.depth < 2 →
      "Press a bit deeper" ∈ (generate_guidance a).all_feedback ∧
      ((generate_guidance a).priority = "warning" ∨
        (generate_guidance a).priority = "critical")) ∧
    (2.4 < a.depth →
      "Too deep - ease up" ∈ (generate_guidance a).all_feedback ∧
      ((generate_guidance a).priority = "warning" ∨
        (generate_guidance a).priority = "critical")) ∧
    (2 ≤ a.depth → a.depth ≤ 2.4 →
      "PRESS DEEPER - at least 2 inches" ∉ (generate_guidance a).all_feedback ∧
      "Press a bit deeper" ∉ (generate_guidance a).all_feedback ∧
      "Too deep - ease up" ∉ (generate_guidance a).all_feedback) ∧
    (a.depth = 0 →
      "PRESS DEEPER - at least 2 inches" ∉ (generate_guidance a).all_feedback ∧
      "Press a bit deeper" ∉ (generate_guidance a).all_feedback ∧
      "Too deep - ease up" ∉ (generate_guidance a).all_feedback) := by
  refine ⟨?_, ?_, ?_, ?_, ?_⟩
  · intro h0 h18
    have hmem : "PRESS DEEPER - at least 2 inches" ∈ (generate_guidance a).all_feedback := by
      rw [generate_guidance_feedback, mem_rules_state]
      exact Or.inr (Or.inr (Or.inl ⟨h0, h18, rfl⟩))
    exact ⟨hmem, by
      rw [generate_guidance_priority_of_mem a _ hmem]
      exact rules_state_pr_crit_depth a h0 h18⟩
  · intro h18 h2
    have hmem : "Press a bit deeper" ∈ (generate_guidance a).all_feedback := by
      rw [generate_guidance_feedback, mem_rules_state]
      exact Or.inr (Or.inr (Or.inr (Or.inl ⟨by linarith, not_lt.mpr h18, h2, rfl⟩)))
    exact ⟨hmem, by
      rw [generate_guidance_priority_of_mem a _ hmem]
      exact rules_state_pr_warn_depth_mid a (by linarith) (not_lt.mpr h18) h2⟩
  · intro h24
    have hmem : "Too deep - ease up" ∈ (generate_guidance a).all_feedback := by
      rw [generate_guidance_feedback, mem_rules_state]
      exact Or.inr (Or.inr (Or.inr (Or.inr (Or.inl
        ⟨by linarith, by push_neg; linarith, by push_neg; linarith, h24, rfl⟩))))
    exact ⟨hmem, by
      rw [generate_guidance_priority_of_mem a _ hmem]
      exact rules_state_pr_warn_depth_deep a h24⟩
  · intro hb1 hb2
    refine ⟨?_, ?_, ?_⟩ <;>
      rw [generate_guidance_feedback, mem_rules_state] <;>
      rintro (⟨_, _, hx⟩ | ⟨_, _, _, hx⟩ | ⟨h0, h1, hx⟩ | ⟨h0, h1, h2x, hx⟩ |
        ⟨h0, h1, h2x, h3, hx⟩ | ⟨_, hx⟩) <;>
      first
        | exact absurd hx (by decide)
        | linarith
  · intro hd
    refine ⟨?_, ?_, ?_⟩ <;>
      rw [generate_guidance_feedback, mem_rules_state] <;>
      rintro (⟨_, _, hx⟩ | ⟨_, _, _, hx⟩ | ⟨h0, h1, hx⟩ | ⟨h0, h1, h2x, hx⟩ |
        ⟨h0, h1, h2x, h3, hx⟩ | ⟨_, hx⟩) <;>
      first
        | exact absurd hx (by decide)
        | linarith

theorem compression_depth_rule_cases_witness :
    "PRESS DEEPER - at least 2 inches" ∈
      (generate_guidance { depth := 1.5 }).all_feedback ∧
    (generate_guidance { depth := 1.5 }).priority = "critical" :=
  (compression_depth_rule_cases { depth := 1.5 }).1 (by norm_num) (by norm_num)

/-- C5 counterexample for the claim as stated: the code appends the
hyphenated "PRESS DEEPER - at least 2 inches" and "Too deep - ease up",
not the em-dash strings "PRESS DEEPER — at least 2 inches" and
"Too deep — ease up" the claim names. -/
theorem depth_message_spelling_cex :
    "PRESS DEEPER - at least 2 inches" ∈
      (generate_guidance { depth := 1.5 }).all_feedback ∧
    "PRESS DEEPER — at least 2 inches" ∉
      (generate_guidance { depth := 1.5 }).all_feedback ∧
    "Too deep - ease up" ∈ (generate_guidance { depth := 2.5 }).all_feedback ∧
    "Too deep — ease up" ∉ (generate_guidance { depth := 2.5 }).all_feedback := by
  refine ⟨?_, ?_, ?_, ?_⟩ <;>
    norm_num [generate_guidance, rules_state, arm_rule, depth_rule, hand_rule] <;>
    decide

/-- C6: the centering warning fires exactly when `|hand_x - 0.5| > 0.15`,
while the `hands_centered` metric is true exactly when
`|hand_x - 0.5| < 0.10`; in the gap `[0.10, 0.15]` no warning fires yet
`hands_centered` is false. -/
theorem hand_centering_cases (a : Analysis) :
    ("CENTER YOUR HANDS on the chest" ∈ (generate_guidance a).all_feedback ↔
      0.15 < |a.hand_x - 0.5|) ∧
    ((generate_guidance a).metrics.hands_centered = true ↔
      |a.hand_x - 0.5| < 0.1) ∧
    (0.1 ≤ |a.hand_x - 0.5| → |a.hand_x - 0.5| ≤ 0.15 →
      "CENTER YOUR HANDS on the chest" ∉ (generate_guidance a).all_feedback ∧
      (generate_guidance a).metrics.hands_centered = false) := by
  have hcent : (generate_guidance a).metrics.hands_centered =
      decide (|a.hand_x - 0.5| < 0.1) := rfl
  have hmem : "CENTER YOUR HANDS on the chest" ∈ (generate_guidance a).all_feedback ↔
      0.15 < |a.hand_x - 0.5| := by
    rw [generate_guidance_feedback, mem_rules_state]
    constructor
    · rintro (⟨_, _, hx⟩ | ⟨_, _, _, hx⟩ | ⟨_, _, hx⟩ | ⟨_, _, _, hx⟩ |
        ⟨_, _, _, _, hx⟩ | ⟨h, _⟩) <;>
        first
          | exact absurd hx (by decide)
          | exact h
    · intro h
      exact Or.inr (Or.inr (Or.inr (Or.inr (Or.inr ⟨h, rfl⟩))))
  refine ⟨hmem, ?_, ?_⟩
  · rw [hcent, decide_eq_true_eq]
  · intro h1 h2
    refine ⟨?_, ?_⟩
    · rw [hmem]
      exact not_lt.mpr h2
    · rw [hcent, decide_eq_false_iff_not]
      exact not_lt.mpr h1

theorem hand_centering_cases_witness :
    "CENTER YOUR HANDS on the chest" ∉
      (generate_guidance { hand_x := 0.62 }).all_feedback ∧
    (generate_guidance { hand_x := 0.62 }).metrics.hands_centered = false :=
  (hand_centering_cases { hand_x := 0.62 }).2.2
    (by rw [abs_of_nonneg] <;> norm_num) (by rw [abs_of_nonneg] <;> norm_num)

/-- C10: the all-default analysis (no pose, no model: arm 0, depth 0,
hand_x 0.5, quality 0, phase 0 — the same `Analysis` value that models an
empty mapping, since every lookup defaults) is coached as priority good
with the good-technique instruction, `hands_centered = true`,
`quality_percent = 0` and `compression_phase = "up"`; its priority and
instruction coincide with those of a perfect frame (arm 175, depth 2.2,
centered). -/
theorem default_analysis_reports_good :
    (generate_guidance {}).priority = "good" ∧
    (generate_guidance {}).instruction = "Good CPR technique! Keep going!" ∧
    (generate_guidance {}).metrics.hands_centered = true ∧
    (generate_guidance {}).metrics.quality_percent = 0 ∧
    (generate_guidance {}).metrics.compression_phase = "up" ∧
    (generate_guidance {}).priority =
      (generate_guidance
        { pose_detected := true, arm_angle := 175, depth := 2.2, hand_x := 0.5 }).priority ∧
    (generate_guidance {}).instruction =
      (generate_guidance
        { pose_detected := true, arm_angle := 175, depth := 2.2, hand_x := 0.5 }).instruction := by
  refine ⟨?_, ?_, ?_, ?_, ?_, ?_, ?_⟩ <;>
    norm_num [generate_guidance, rules_state, arm_rule, depth_rule, hand_rule,
      pyRound, roundHalfEven, Int.floor_zero, decide_eq_true_eq]

/-- C1 counterexample: `generate_guidance` has no error branch.  On an
analysis result whose `error` field is set (and only it, as
`analyze_cpr_image` returns on failure), it reports priority "good" with
the good-technique instruction — not priority "critical" with
"analysis unavailable" and empty metrics — and it does consume the
measurement fields accompanying an error: adding `depth := 1.5` to the
same error result changes the output. -/
theorem error_result_coached_good :
    (generate_guidance { error := some "Invalid image" }).priority = "good" ∧
    (generate_guidance { error := some "Invalid image" }).priority ≠ "critical" ∧
    (generate_guidance { error := some "Invalid image" }).instruction ≠
      "analysis unavailable" ∧
    (generate_guidance { error := some "Invalid image" }).instruction =
      "Good CPR technique! Keep going!" ∧
    generate_guidance { depth := 1.5, error := some "Invalid image" } ≠
      generate_guidance { error := some "Invalid image" } := by
  refine ⟨?_, ?_, ?_, ?_, ?_⟩
  · norm_num [generate_guidance, rules_state, arm_rule, depth_rule, hand_rule]
  · norm_num [generate_guidance, rules_state, arm_rule, depth_rule, hand_rule]
    decide
  · norm_num [generate_guidance, rules_state, arm_rule, depth_rule, hand_rule]
    decide
  · norm_num [generate_guidance, rules_state, arm_rule, depth_rule, hand_rule]
  · intro h
    have h2 := congrArg Guidance.all_feedback h
    norm_num [generate_guidance, rules_state, arm_rule, depth_rule, hand_rule] at h2

/-- C1 amended: `generate_guidance` ignores the `error` field entirely —
its output is invariant under any change of `error` — so an error result
is coached from whatever measurement fields accompany it (defaults when
none do), and the error-only result is reported as priority "good" with
the same metrics as the all-default analysis. -/
theorem generate_guidance_ignores_error (a : Analysis) (e : Option String) :
    generate_guidance { a with error := e } = generate_guidance a ∧
    (generate_guidance { error := some "Invalid image" }).priority = "good" ∧
    (generate_guidance { error := some "Invalid image" }).metrics =
      (generate_guidance {}).metrics := by
  refine ⟨rfl, ?_, rfl⟩
  norm_num [generate_guidance, rules_state, arm_rule, depth_rule, hand_rule]

/-- C2: the fallback orchestrator invokes Replicate first, then the ML
service (only when configured), then the local backend; it returns the
first result without an error, and when every attempted backend fails it
returns the last attempted backend's (the local backend's) result,
error and all.  The returned trace lists the backends invoked, in order. -/
theorem fallback_chain_cases (use_ml : Bool) (conv : BackendResult → BackendResult)
    (rep ml loc : BackendResult) :
    (rep.error = none →
      analyze_cpr_image_with_replicate use_ml conv rep ml loc =
        (set_analysis_source (conv rep) "replicate", [BackendTag.replicate])) ∧
    (∀ e, rep.error = some e → e ≠ "" → use_ml = true → ml.error = none →
      analyze_cpr_image_with_replicate use_ml conv rep ml loc =
        (set_analysis_source ml "ml_service",
         [BackendTag.replicate, BackendTag.ml_service])) ∧
    (∀ e1 e2, rep.error = some e1 → e1 ≠ "" → use_ml = true →
        ml.error = some e2 → e2 ≠ "" →
      analyze_cpr_image_with_replicate use_ml conv rep ml loc =
        (loc, [BackendTag.replicate, BackendTag.ml_service,
          BackendTag.local_models])) ∧
    (∀ e1, rep.error = some e1 → e1 ≠ "" → use_ml = false →
      analyze_cpr_image_with_replicate use_ml conv rep ml loc =
        (loc, [BackendTag.replicate, BackendTag.local_models])) := by
  refine ⟨?_, ?_, ?_, ?_⟩
  · intro h
    simp [analyze_cpr_image_with_replicate, error_truthy, h]
  · intro e h1 h2 h3 h4
    simp [analyze_cpr_image_with_replicate, error_truthy, h1, h2, h3, h4]
  · intro e1 e2 h1 h2 h3 h4 h5
    simp [analyze_cpr_image_with_replicate, error_truthy, h1, h2, h3, h4, h5]
  · intro e1 h1 h2 h3
    simp [analyze_cpr_image_with_replicate, error_truthy, h1, h2, h3]

theorem fallback_chain_cases_witness :
    analyze_cpr_image_with_replicate false id { error := some "boom" } {} {} =
      ({}, [BackendTag.replicate, BackendTag.local_models]) :=
  (fallback_chain_cases false id { error := some "boom" } {} {}).2.2.2 "boom" rfl
    (by decide) rfl

/-- C8 counterexample: a recorded frame whose position label is
`"warning"` (a value the `/analyze-hands` response does produce) bumps
`total_photos` but none of the three category counters, so the claimed
partition `total = good + poor + no_cpr` fails after one frame. -/
theorem frame_count_partition_cex :
    (run_photos [{ position := some "warning" }]).total_photos = 1 ∧
    (run_photos [{ position := some "warning" }]).good_positions +
        (run_photos [{ position := some "warning" }]).poor_positions +
        (run_photos [{ position := some "warning" }]).no_cpr_detected = 0 ∧
    (run_photos [{ position := some "warning" }]).total_photos ≠
      (run_photos [{ position := some "warning" }]).good_positions +
        (run_photos [{ position := some "warning" }]).poor_positions +
        (run_photos [{ position := some "warning" }]).no_cpr_detected := by
  refine ⟨?_, ?_, ?_⟩ <;>
    simp [run_photos, record_photo, poor_position_labels]

theorem record_photo_partition_step (s : SessionStats) (p : PhotoRecord)
    (hp : p.position.getD "uncertain" = "good" ∨
        p.position.getD "uncertain" ∈ poor_position_labels ∨
        p.position.getD "uncertain" = "no_cpr")
    (h1 : s.total_photos = s.good_positions + s.poor_positions + s.no_cpr_detected)
    (h2 : s.total_photos = s.photos.length) :
    (record_photo s p).total_photos =
      (record_photo s p).good_positions + (record_photo s p).poor_positions +
        (record_photo s p).no_cpr_detected ∧
    (record_photo s p).total_photos = (record_photo s p).photos.length := by
  simp only [record_photo]
  split_ifs with hg hpl hnc <;>
    constructor <;>
    simp_all [List.length_append] <;>
    omega

theorem foldl_record_partition (ps : List PhotoRecord) (s : SessionStats)
    (hp : ∀ p ∈ ps, p.position.getD "uncertain" = "good" ∨
        p.position.getD "uncertain" ∈ poor_position_labels ∨
        p.position.getD "uncertain" = "no_cpr")
    (h1 : s.total_photos = s.good_positions + s.poor_positions + s.no_cpr_detected)
    (h2 : s.total_photos = s.photos.length) :
    (ps.foldl record_photo s).total_photos =
      (ps.foldl record_photo s).good_positions +
        (ps.foldl record_photo s).poor_positions +
        (ps.foldl record_photo s).no_cpr_detected ∧
    (ps.foldl record_photo s).total_photos =
      (ps.foldl record_photo s).photos.length := by
  induction ps generalizing s with
  | nil => exact ⟨h1, h2⟩
  | cons p ps ih =>
    have hstep := record_photo_partition_step s p (hp p (by simp)) h1 h2
    exact ih (record_photo s p) (fun q hq => hp q (by simp [hq])) hstep.1 hstep.2

/-- C8 amended: `total_photos` always equals the number of recorded
photos, and it equals `good_positions + poor_positions + no_cpr_detected`
provided every recorded frame's position label is one of the labels the
if/elif chain recognises (`good`, the six poor labels, or `no_cpr`); a
frame with any other label breaks the partition. -/
theorem frame_count_partition (ps : List PhotoRecord)
    (hp : ∀ p ∈ ps, p.position.getD "uncertain" = "good" ∨
        p.position.getD "uncertain" ∈ poor_position_labels ∨
        p.position.getD "uncertain" = "no_cpr") :
    (run_photos ps).total_photos =
      (run_photos ps).good_positions + (run_photos ps).poor_positions +
        (run_photos ps).no_cpr_detected ∧
    (run_photos ps).total_photos = (run_photos ps).photos.length :=
  foldl_record_partition ps {} hp rfl rfl

theorem frame_count_partition_witness :
    (run_photos [{ position := some "good" }]).total_photos =
      (run_photos [{ position := some "good" }]).good_positions +
        (run_photos [{ position := some "good" }]).poor_positions +
        (run_photos [{ position := some "good" }]).no_cpr_detected ∧
    (run_photos [{ position := some "good" }]).total_photos =
      (run_photos [{ position := some "good" }]).photos.length :=
  frame_count_partition [{ position := some "good" }] (by
    intro p hp
    rw [List.mem_singleton] at hp
    subst hp
    exact Or.inl rfl)

theorem foldl_record_avg (ps : List PhotoRecord) (s : SessionStats) :
    (ps.foldl record_photo s).average_confidence *
        (((ps.foldl record_photo s).total_photos : ℕ) : ℚ) =
      s.average_confidence * ((s.total_photos : ℕ) : ℚ) +
        (ps.map PhotoRecord.confidence).sum ∧
    (ps.foldl record_photo s).total_photos = s.total_photos + ps.length := by
  induction ps generalizing s with
  | nil => simp
  | cons p ps ih =>
    have hne : (((s.total_photos + 1 : ℕ) : ℚ)) ≠ 0 := by positivity
    have hstep : (record_photo s p).average_confidence *
        (((record_photo s p).total_photos : ℕ) : ℚ) =
          s.average_confidence * ((s.total_photos : ℕ) : ℚ) + p.confidence := by
      show (s.average_confidence * (((s.total_photos + 1 : ℕ) : ℚ) - 1) + p.confidence) /
          ((s.total_photos + 1 : ℕ) : ℚ) * ((s.total_photos + 1 : ℕ) : ℚ) = _
      rw [div_mul_cancel₀ _ hne]
      push_cast
      ring
    have htot : (record_photo s p).total_photos = s.total_photos + 1 := rfl
    obtain ⟨ha, ht⟩ := ih (record_photo s p)
    constructor
    · rw [List.foldl_cons, ha, hstep, List.map_cons, List.sum_cons]
      ring
    · rw [List.foldl_cons, ht, htot, List.length_cons]
      omega

/-- C9: the incrementally maintained session average
(`((current_avg * (n - 1)) + x) / n`) agrees with the batch arithmetic
mean of all recorded confidences recomputed from scratch, for every
sequence of frames, within the claimed tolerance `1e-9` (in the exact
rational embedding they are equal, hence within any tolerance). -/
theorem incremental_mean_matches_batch (ps : List PhotoRecord) :
    |(run_photos ps).average_confidence - batch_mean ps| ≤ 1e-9 := by
  have heq : (run_photos ps).average_confidence = batch_mean ps := by
    obtain ⟨ha, ht⟩ := foldl_record_avg ps {}
    rcases eq_or_ne ps [] with h | h
    · subst h
      simp [run_photos, batch_mean]
    · have hlen : ¬ ps.length = 0 := by
        rw [List.length_eq_zero]
        exact h
      have hlenq : ((ps.length : ℕ) : ℚ) ≠ 0 := Nat.cast_ne_zero.mpr hlen
      rw [batch_mean, if_neg hlen, eq_div_iff hlenq]
      have ha2 := ha
      rw [ht] at ha2
      simpa [run_photos] using ha2
  rw [heq, sub_self, abs_zero]
  norm_num

/-- C7 counterexample: on a frame whose left arm is straight and whose
right elbow is bent at a right angle (both arms' landmarks present), the
arm angle `analyze_cpr_image` reports is the left-elbow angle, not the
mean of both sides as claimed. -/
theorem bilateral_mean_cex :
    reported_arm_angle cex_landmarks 1 1 ≠
      spec_bilateral_arm_angle cex_landmarks 1 1 := by
  have hL : reported_arm_angle cex_landmarks 1 1 =
      Real.arccos (-1 / (1 + 1e-6)) * (180 / Real.pi) := by
    unfold reported_arm_angle cex_landmarks scale_landmark get_angle vsub vdot vnorm
    norm_num [Real.sqrt_one]
  have hR : spec_bilateral_arm_angle cex_landmarks 1 1 =
      (Real.arccos (-1 / (1 + 1e-6)) * (180 / Real.pi) +
        Real.arccos 0 * (180 / Real.pi)) / 2 := by
    unfold spec_bilateral_arm_angle cex_landmarks scale_landmark get_angle vsub vdot vnorm
    norm_num [Real.sqrt_one]
  have hx : Real.arccos (-1 / (1 + 1e-6)) ≠ Real.arccos 0 := by
    intro h
    have hc1 : (-1 : ℝ) ≤ -1 / (1 + 1e-6) := by norm_num
    have hc2 : (-1 / (1 + 1e-6) : ℝ) ≤ 1 := by norm_num
    have h1 : (-1 / (1 + 1e-6) : ℝ) = 0 := by
      calc (-1 / (1 + 1e-6) : ℝ)
          = Real.cos (Real.arccos (-1 / (1 + 1e-6))) := (Real.cos_arccos hc1 hc2).symm
        _ = Real.cos (Real.arccos 0) := by rw [h]
        _ = 0 := by rw [Real.arccos_zero, Real.cos_pi_div_two]
    norm_num at h1
  have hk : (180 / Real.pi : ℝ) ≠ 0 := ne_of_gt (div_pos (by norm_num) Real.pi_pos)
  rw [hL, hR]
  intro h
  apply hx
  refine mul_right_cancel₀ hk ?_
  linarith

/-- C7 amended: the reported arm angle is always the left-arm elbow angle
computed from landmarks 11, 13, 15 alone; it does not depend on the
right-arm landmarks at all (two frames agreeing on the left-arm landmarks
get the same reported angle, whatever the right arm does). -/
theorem reported_arm_angle_uses_left_arm_only (lm lm2 : ℕ → Landmark)
    (w h : ℝ) (h11 : lm 11 = lm2 11) (h13 : lm 13 = lm2 13)
    (h15 : lm 15 = lm2 15) :
    reported_arm_angle lm w h = reported_arm_angle lm2 w h ∧
    reported_arm_angle lm w h =
      get_angle (scale_landmark (lm 11) w h) (scale_landmark (lm 13) w h)
        (scale_landmark (lm 15) w h) := by
  constructor
  · unfold reported_arm_angle
    rw [h11, h13, h15]
  · rfl

theorem reported_arm_angle_uses_left_arm_only_witness :
    reported_arm_angle cex_landmarks 1 1 = reported_arm_angle cex_landmarks2 1 1 :=
  (reported_arm_angle_uses_left_arm_only cex_landmarks cex_landmarks2 1 1
    (by norm_num [cex_landmarks, cex_landmarks2])
    (by norm_num [cex_landmarks, cex_landmarks2])
    (by norm_num [cex_landmarks, cex_landmarks2])).1

end Rescue
